import Mathlib

/-!
Verification development for the textile production ingestion backend
(`backend/models.py`, `backend/utils.py`, `backend/parser.py`,
`backend/database.py`).

Modelling conventions:
* Calendar dates are modelled as `Int` day numbers; `today` is an explicit
  parameter (the code reads `datetime.now().date()`).  `utils.parse_date`
  returns a datetime or `None`; a date field is therefore modelled as
  `Option Int`, where `none` covers an absent value, an empty string, and a
  string `parse_date` rejects.  This collapse is observation-preserving for
  `derive_status`: an unparsable string is kept in `date_values` by the code
  but contributes to neither `completed_stages` nor `future_stages`, and the
  only test on `date_values` that it can change (`if not date_values`) leads
  to `"pending"`, which is also what the branches at the bottom return when
  both stage lists are empty.
* `datetime` timestamps (`created_at`, `updated_at`) are modelled as `Int`.
* `required_weight` is a Python float that is only stored and compared,
  never computed with; it is carried as `Option Int`.
-/

namespace Textile

/-- Model of `models.ProductionDates`: one optional calendar date per
production stage plus the shipping date, every field defaulting to absent.
Field order mirrors the pydantic model, whose `model_dump()` dict iterates
in this declaration order (shipping first). -/
structure ProductionDates where
  shipping : Option Int := none
  fabric : Option Int := none
  cutting : Option Int := none
  sewing : Option Int := none
  embroidery : Option Int := none
  size_set : Option Int := none
  vap : Option Int := none
  feeding : Option Int := none
deriving DecidableEq

/-- Model of `models.ProductionItemInput`, the schema the extraction service
must return.  Note that it carries no `status` field: the structure has
exactly the eight fields of the pydantic input model. -/
structure ProductionItemInput where
  order_number : String
  style : String
  fabric : String
  color : String
  quantity : Int
  dates : ProductionDates
  supplier : Option String := none
  required_weight : Option Int := none
deriving DecidableEq

/-- Model of `models.ProductionItem`, the persisted document (MongoDB's
storage-assigned `_id` is not content and is omitted; `$set` never touches
it). -/
structure ProductionItem where
  order_number : String
  style : String
  fabric : String
  color : String
  quantity : Int
  status : String := "pending"
  dates : ProductionDates
  supplier : Option String := none
  required_weight : Option Int := none
  source_file : String
  created_at : Int
  updated_at : Int
deriving DecidableEq

/-- Model of the shipping test in `parser.derive_status` lines 112-114:
`if shipping_date:` followed by `parse_date` and `shipping_parsed.date() <
today`.  A present, parsable shipping date strictly before today. -/
def shipping_past (shipping_date : Option Int) (today : Int) : Bool :=
  match shipping_date with
  | some s => decide (s < today)
  | none => false

/-- Model of `parser.derive_status(dates, shipping_date)` evaluated against
`today`.  `dates` is the list of values of the dict the caller passes
(`dates.values()`); `date_values` keeps the non-absent ones; they are
partitioned into stages on or before today (`completed_stages`) and stages
after today (`future_stages`), and the four return statements are taken in
source order: delayed, completed, in_production, pending. -/
def derive_status (dates : List (Option Int)) (shipping_date : Option Int)
    (today : Int) : String :=
  let date_values := dates.filterMap id
  if date_values.isEmpty then
    "pending"
  else
    let completed_stages := date_values.filter (fun d => decide (d ≤ today))
    let future_stages := date_values.filter (fun d => !decide (d ≤ today))
    let total_stages := completed_stages.length + future_stages.length
    if shipping_past shipping_date today && decide (completed_stages.length < total_stages) then
      "delayed"
    else if decide (0 < total_stages) && decide (completed_stages.length = total_stages) then
      "completed"
    else if decide (0 < completed_stages.length) then
      "in_production"
    else
      "pending"

/-- Values of the dict `item_dict['dates']` that
`parser.extract_production_items` passes to `derive_status` (line 219).
`model_dump()` of `ProductionDates` yields all eight fields, shipping
included, in declaration order. -/
def dates_values (d : ProductionDates) : List (Option Int) :=
  [d.shipping, d.fabric, d.cutting, d.sewing, d.embroidery, d.size_set, d.vap, d.feeding]

/-- The stage dates in the sense of the specification: the seven
production-stage fields, the shipping date excluded. -/
def stage_values (d : ProductionDates) : List (Option Int) :=
  [d.fabric, d.cutting, d.sewing, d.embroidery, d.size_set, d.vap, d.feeding]

/-- The exact call made by `parser.extract_production_items` line 219:
`derive_status(dates_dict, dates_dict.get('shipping'))`, where `dates_dict`
is the full dates dict (shipping included among its values). -/
def derive_status_pipeline (d : ProductionDates) (today : Int) : String :=
  derive_status (dates_values d) d.shipping today

/-- Concrete input for claim C2: a past shipping date (day -1, with today =
day 0) and no stage dates at all. -/
def c2_dates : ProductionDates := { shipping := some (-1) }

/-- Concrete input for claim C3: one past stage date (fabric, day -5) and a
future shipping date (day 5), with today = day 0. -/
def c3_dates : ProductionDates := { fabric := some (-5), shipping := some 5 }

/-- The C5 scenario from the spec's test list: one past stage date
(fabric), a past shipping date, one future stage date (cutting), with
today = day 0. -/
def c5_dates : ProductionDates :=
  { fabric := some (-10), cutting := some 10, shipping := some (-5) }

/-- Outcome of one `collection.update_one` call as seen by
`database.insert_items`: either the driver call returns normally, or it
raises (`DuplicateKeyError` from a uniqueness race, or any other exception);
both `except` arms of the source `continue` with the next item. -/
inductive WriteOutcome where
  | ok
  | failure
deriving DecidableEq

/-- The upsert filter of `database.insert_items` line 79-82: the natural key
`(order_number, color)`. -/
def key_matches (item : ProductionItem) (d : ProductionItem) : Bool :=
  d.order_number == item.order_number && d.color == item.color

/-- Model of MongoDB `update_one({key}, {"$set": item_dict}, upsert=True)`
applied to a collection modelled as a list of documents: replace the first
document matching the key by `doc` (the `$set` dict covers every content
field, so the matched document becomes `doc`), reporting whether the
document actually changed (`modified_count`); `none` when no document
matches (the upsert branch). -/
def update_first (store : List ProductionItem) (item : ProductionItem)
    (doc : ProductionItem) : Option (List ProductionItem × Bool) :=
  match store with
  | [] => none
  | d :: rest =>
    if key_matches item d then
      some (doc :: rest, decide (d ≠ doc))
    else
      match update_first rest item doc with
      | some (rest2, m) => some (d :: rest2, m)
      | none => none

/-- One iteration of the loop in `database.insert_items` lines 72-97:
`item_dict = item.model_dump()` (all fields, `created_at` included),
`item_dict['updated_at'] = datetime.utcnow()` (the `now` parameter), then
`update_one` with upsert; the count grows iff `result.upserted_id or
result.modified_count`; a raising write is logged and skipped
(`continue`). -/
def insert_one (store : List ProductionItem) (item : ProductionItem)
    (outcome : WriteOutcome) (now : Int) : List ProductionItem × Nat :=
  match outcome with
  | .failure => (store, 0)
  | .ok =>
    let doc := { item with updated_at := now }
    match update_first store item doc with
    | some (store2, modified) => (store2, if modified then 1 else 0)
    | none => (store ++ [doc], 1)

/-- Model of `database.insert_items`: fold the batch over the collection,
summing the per-item counts.  Each batch element carries the outcome of its
`update_one` call (an input of the model: whether the driver raised). -/
def insert_items (store : List ProductionItem)
    (batch : List (ProductionItem × WriteOutcome)) (now : Int) :
    List ProductionItem × Nat :=
  batch.foldl
    (fun acc x =>
      ((insert_one acc.1 x.1 x.2 now).1, acc.2 + (insert_one acc.1 x.1 x.2 now).2))
    (store, 0)

/-- Specification-side predicate for claim C8: a successful write of `item`
at time `now` is counted iff it inserts (no document under the natural key)
or materially changes the matched document. -/
def materially_changed (store : List ProductionItem) (item : ProductionItem)
    (now : Int) : Bool :=
  match store.find? (key_matches item) with
  | none => true
  | some d => decide (d ≠ { item with updated_at := now })

/-- A record already in the store: natural key `("IO-1", "Blue")`, created
at time 100. -/
def stored0 : ProductionItem :=
  { order_number := "IO-1", style := "STYLE-A", fabric := "Cotton",
    color := "Blue", quantity := 100, status := "pending", dates := {},
    source_file := "a.xlsx", created_at := 100, updated_at := 100 }

/-- The same order/color line re-ingested later: the pipeline constructs a
fresh `ProductionItem` whose `created_at` default is the new ingestion time
(200). -/
def reingested0 : ProductionItem :=
  { stored0 with created_at := 200, updated_at := 200 }

/-- Model of the MongoDB operator `{"$regex": pattern, "$options": "i"}` for
the patterns this backend's filters are used with (plain text, no regex
metacharacters): an unanchored regex containing no metacharacters matches a
string exactly when the pattern occurs in it as a substring, and option "i"
makes the comparison case-insensitive. -/
def contains_ci (pattern text : String) : Bool :=
  (text.toLower.toList).tails.any (fun t => pattern.toLower.toList.isPrefixOf t)

/-- The filter document built by `database.get_items` lines 126-135 (and,
textually duplicated, by `database.get_total_count` lines 229-238): a
`$regex`/`"i"` constraint on `style`, an exact constraint on `status`, a
`$regex`/`"i"` constraint on `order_number`. -/
structure MongoQuery where
  style_regex : Option String := none
  status_eq : Option String := none
  order_regex : Option String := none
deriving DecidableEq

/-- Query construction of `database.get_items`: each `if style:` adds its
constraint only when the argument is present and non-empty (Python
truthiness: `None` and `""` are both falsy). -/
def build_query (style status order_number : Option String) : MongoQuery :=
  { style_regex :=
      match style with
      | some s => if s = "" then none else some s
      | none => none
    status_eq :=
      match status with
      | some s => if s = "" then none else some s
      | none => none
    order_regex :=
      match order_number with
      | some s => if s = "" then none else some s
      | none => none }

/-- Query construction of `database.get_total_count`, which repeats the same
three `if` statements as `get_items`. -/
def build_count_query (style status order_number : Option String) : MongoQuery :=
  { style_regex :=
      match style with
      | some s => if s = "" then none else some s
      | none => none
    status_eq :=
      match status with
      | some s => if s = "" then none else some s
      | none => none
    order_regex :=
      match order_number with
      | some s => if s = "" then none else some s
      | none => none }

/-- A document matches the filter document: conjunction of the constraints
present, `$regex`/`"i"` interpreted by `contains_ci` and the status
constraint by equality. -/
def query_matches (q : MongoQuery) (item : ProductionItem) : Bool :=
  (match q.style_regex with
    | some p => contains_ci p item.style
    | none => true) &&
  (match q.status_eq with
    | some s => item.status == s
    | none => true) &&
  (match q.order_regex with
    | some s => contains_ci s item.order_number
    | none => true)

/-- Specification-side filter predicate, written from the spec's words
(§4.5, §8): the style filter is a case-insensitive substring match, the
status filter is an exact match, the order filter is a case-insensitive
substring match, and an absent or empty filter constrains nothing. -/
def matches_spec (item : ProductionItem) (style status order_number : Option String) : Bool :=
  (match style with
    | some s => if s = "" then true else contains_ci s item.style
    | none => true) &&
  (match status with
    | some s => if s = "" then true else item.status == s
    | none => true) &&
  (match order_number with
    | some s => if s = "" then true else contains_ci s item.order_number
    | none => true)

/-- Insertion step for the model of `sort("created_at", -1)`. -/
def insert_by_created (a : ProductionItem) : List ProductionItem → List ProductionItem
  | [] => [a]
  | b :: rest =>
    if b.created_at ≤ a.created_at then a :: b :: rest
    else b :: insert_by_created a rest

/-- Deterministic model of the MongoDB cursor sort `("created_at", -1)`:
most recent creation timestamp first. -/
def sort_by_created_desc : List ProductionItem → List ProductionItem
  | [] => []
  | a :: rest => insert_by_created a (sort_by_created_desc rest)

/-- Model of `database.get_items`: build the filter, then
`find(query).skip(skip).limit(limit).sort("created_at", -1)` — the server
applies sort before skip and limit whatever the call order on the cursor —
and `to_list(length=limit)` caps the result at the same bound. -/
def get_items (store : List ProductionItem) (skip limit : Nat)
    (style status order_number : Option String) : List ProductionItem :=
  let q := build_query style status order_number
  (((sort_by_created_desc (store.filter (fun it => query_matches q it))).drop skip).take limit)

/-- Model of `database.get_total_count`: rebuild the filter the same way and
`count_documents(query)`; `skip` and `limit` are not parameters. -/
def get_total_count (store : List ProductionItem)
    (style status order_number : Option String) : Nat :=
  let q := build_count_query style status order_number
  (store.filter (fun it => query_matches q it)).length

/-- A raw spreadsheet as delivered to pandas by the excel cell converters:
every cell is a string, a blank cell (including a cell blanked by a merged
range) being the empty string — the openpyxl and xlrd readers used by
`pd.read_excel` convert an empty cell to `""`. -/
abbrev Grid := List (List String)

/-- Width of the sheet: the longest row. -/
def grid_width (g : Grid) : Nat :=
  g.foldr (fun r acc => max r.length acc) 0

/-- Pad a row with blank cells up to the sheet width. -/
def pad_row (w : Nat) (row : List String) : List String :=
  row ++ List.replicate (w - row.length) ""

/-- Column labels pandas derives from the chosen header row: a blank header
cell is renamed to the placeholder label "Unnamed: i" by the text parser
behind `pd.read_excel`, so every resulting label is a present (non-NaN)
value.  Labels are modelled as `Option String` so that `notna` is the
`Option.isSome` test; after this renaming no label is `none`. -/
def make_columns (row : List String) : List (Option String) :=
  row.mapIdx (fun i c => if c = "" then some ("Unnamed: " ++ toString i) else some c)

/-- Body cells: a blank cell becomes missing (NaN). -/
def to_na (row : List String) : List (Option String) :=
  row.map (fun c => if c = "" then none else some c)

/-- A pandas DataFrame, as far as this module observes it: the column
labels and the body rows. -/
structure Frame where
  columns : List (Option String)
  data : List (List (Option String))
deriving DecidableEq

/-- Model of `pd.read_excel(file_path, sheet_name=0, header=k)`: row `k`
supplies the column labels and the rows below it the body; `none` models
the call raising (header row beyond the sheet), which the caller's
`except` swallows. -/
def pd_read_excel (grid : Grid) (header : Nat) : Option Frame :=
  match grid[header]? with
  | some hrow =>
    some { columns := make_columns (pad_row (grid_width grid) hrow)
           data := (grid.drop (header + 1)).map (fun r => to_na (pad_row (grid_width grid) r)) }
  | none => none

/-- Model of `df.columns.notna().sum()`: the number of present column
labels. -/
def valid_columns (f : Frame) : Nat :=
  (f.columns.filter Option.isSome).length

/-- One row of `df.ffill()`: a missing cell inherits the value carried down
from the rows above. -/
def ffill_row (last row : List (Option String)) : List (Option String) :=
  List.zipWith (fun l c => match c with | some v => some v | none => l) last row

/-- Model of `df.ffill()`: forward-fill every column top to bottom. -/
def ffill_data (last : List (Option String)) :
    List (List (Option String)) → List (List (Option String))
  | [] => []
  | row :: rest =>
    let r := ffill_row last row
    r :: ffill_data r rest

/-- Model of `df.dropna(how='all')`: drop the rows with no present cell. -/
def dropna_all_rows (rows : List (List (Option String))) : List (List (Option String)) :=
  rows.filter (fun r => r.any Option.isSome)

/-- The cleaning applied on acceptance in `parser.read_excel_flexible`
lines 47-54 (and in the fallback): `ffill` then `dropna(how='all')`. -/
def clean_frame (f : Frame) : Frame :=
  { f with data := dropna_all_rows (ffill_data (List.replicate f.columns.length none) f.data) }

/-- One attempt of the loop in `parser.read_excel_flexible` lines 38-58:
read with the given header row, accept when `valid_columns > 5`, clean and
return; `none` when the read raised or the column check failed. -/
def try_header (grid : Grid) (k : Nat) : Option Frame :=
  match pd_read_excel grid k with
  | some f => if 5 < valid_columns f then some (clean_frame f) else none
  | none => none

/-- The fallback of `parser.read_excel_flexible` lines 60-66:
`pd.read_excel(..., header=None)` gives positional integer labels and keeps
every row as body, then the same cleaning. -/
def read_with_no_header (grid : Grid) : Frame :=
  clean_frame
    { columns := (List.range (grid_width grid)).map (fun i => some (toString i))
      data := grid.map (fun r => to_na (pad_row (grid_width grid) r)) }

/-- Model of `parser.read_excel_flexible`: try header rows 0, 1, 2 in that
order, return on the first acceptance, else fall back to a headerless read.
The first component records which header row was accepted (`none` for the
fallback), matching what the function logs. -/
def read_excel_flexible (grid : Grid) : Option Nat × Frame :=
  match try_header grid 0 with
  | some f => (some 0, f)
  | none =>
    match try_header grid 1 with
    | some f => (some 1, f)
    | none =>
      match try_header grid 2 with
      | some f => (some 2, f)
      | none => (none, read_with_no_header grid)

/-- The C4 scenario: a sheet six columns wide whose row 0 carries only a
title and whose true header is row 1, with a data row whose blank color
cell should inherit the color above it. -/
def title_grid : Grid :=
  [["Production Schedule", "", "", "", "", ""],
   ["IO Number", "Style", "Fabric", "Color", "Qty", "Shipping Date"],
   ["IO-1", "S-1", "Cotton", "Blue", "100", "2025-01-01"],
   ["IO-1", "S-1", "Cotton", "", "50", "2025-01-02"]]

/-- The key check in `parser.extract_production_items` lines 149-151:
`os.getenv` yields `none` when the variable is unset, and `not api_key`
is also true for the empty string. -/
def api_key_ok (api_key : Option String) : Bool :=
  match api_key with
  | some s => !(s == "" || s == "your_openai_api_key_here")
  | none => false

/-- The structured-output reply of the extraction service: either a parsed
batch conforming to the input schema, or an explicit refusal
(`message.parsed` versus `message.refusal`). -/
inductive LLMessage where
  | parsed (items : List ProductionItemInput)
  | refusal (msg : String)
deriving DecidableEq

/-- The loop body of `parser.extract_production_items` lines 211-221:
dump the input record, add `source_file`, derive the status from the
record's own dates dict, and construct the storable `ProductionItem`
(whose `created_at`/`updated_at` pydantic defaults fire now). -/
def mk_production_item (inp : ProductionItemInput) (source_file : String)
    (today : Int) (now : Int) : ProductionItem :=
  { order_number := inp.order_number
    style := inp.style
    fabric := inp.fabric
    color := inp.color
    quantity := inp.quantity
    status := derive_status_pipeline inp.dates today
    dates := inp.dates
    supplier := inp.supplier
    required_weight := inp.required_weight
    source_file := source_file
    created_at := now
    updated_at := now }

/-- Model of `parser.extract_production_items`: missing or placeholder API
key raises `ValueError`; a parsed reply is mapped through the loop body; a
refusal raises `ValueError("LLM refused to parse: ...")`, which the
enclosing `except` block re-raises unchanged.  The DataFrame is serialized
into the request and does not influence this control flow; the service
reply is the `resp` input. -/
def extract_production_items (api_key : Option String) (_df : Frame)
    (resp : LLMessage) (filename : String) (today : Int) (now : Int) :
    Except String (List ProductionItem) :=
  if api_key_ok api_key then
    match resp with
    | LLMessage.parsed items =>
      Except.ok (items.map (fun it => mk_production_item it filename today now))
    | LLMessage.refusal m =>
      Except.error ("LLM refused to parse: " ++ m)
  else
    Except.error "OPENAI_API_KEY not set in environment variables"

/-- Model of `parser.parse_production_sheet`: read the sheet, then extract;
there is no exception handling here, so an extraction error propagates to
the caller. -/
def parse_production_sheet (grid : Grid) (api_key : Option String)
    (resp : LLMessage) (filename : String) (today : Int) (now : Int) :
    Except String (List ProductionItem) :=
  extract_production_items api_key (read_excel_flexible grid).2 resp filename today now

/-- Helper: `derive_status` only ever returns one of the four literals. -/
theorem derive_status_mem_four (dates : List (Option Int)) (sd : Option Int)
    (today : Int) :
    derive_status dates sd today = "pending"
    ∨ derive_status dates sd today = "in_production"
    ∨ derive_status dates sd today = "completed"
    ∨ derive_status dates sd today = "delayed" := by
  simp only [derive_status]
  split_ifs <;> simp

/-- Helper: a filter and its complementary filter split a list's length. -/
theorem length_filter_split (p : Int → Bool) (l : List Int) :
    (l.filter p).length + (l.filter (fun a => !p a)).length = l.length := by
  induction l with
  | nil => rfl
  | cons a l ih =>
    by_cases h : p a = true <;> simp [List.filter_cons, h] <;> omega

/-- Helper: `derive_status` returns "delayed" whenever the shipping date is
present and strictly before today and not every counted date is on or
before today, whatever else the dates look like. -/
theorem derive_status_delayed_general (dv : List (Option Int)) (sd : Option Int)
    (today s : Int) (hs : sd = some s) (hpast : s < today)
    (hlt : ((dv.filterMap id).filter (fun x => decide (x ≤ today))).length
        < (dv.filterMap id).length) :
    derive_status dv sd today = "delayed" := by
  have hsplit := length_filter_split (fun x => decide (x ≤ today)) (dv.filterMap id)
  have hne : (dv.filterMap id).isEmpty = false := by
    cases h : dv.filterMap id with
    | nil => rw [h] at hlt; simp at hlt
    | cons a l => simp
  have hguard : shipping_past sd today = true := by simp [shipping_past, hs, hpast]
  simp only [derive_status, hne, Bool.false_eq_true, if_false]
  rw [if_pos]
  simp only [hguard, Bool.true_and, decide_eq_true_eq]
  omega

/-- Helper: the count reported by a successful `insert_one` is 1 exactly
when the write inserted or materially changed a document. -/
theorem insert_one_count_spec (store : List ProductionItem)
    (item : ProductionItem) (now : Int) :
    (insert_one store item WriteOutcome.ok now).2
      = if materially_changed store item now then 1 else 0 := by
  induction store with
  | nil => simp [insert_one, update_first, materially_changed]
  | cons d rest ih =>
    by_cases h : key_matches item d
    · simp [insert_one, update_first, materially_changed, List.find?_cons_of_pos, h]
    · have hfind : materially_changed (d :: rest) item now
          = materially_changed rest item now := by
        simp only [materially_changed]
        rw [List.find?_cons_of_neg _ (by simpa using h)]
      have hins : (insert_one (d :: rest) item WriteOutcome.ok now).2
          = (insert_one rest item WriteOutcome.ok now).2 := by
        simp only [insert_one, update_first, if_neg h]
        cases update_first rest item { item with updated_at := now } <;> simp
      rw [hins, hfind] at *
      exact ih

/-- Helper: a failing write leaves the store untouched and counts zero. -/
theorem insert_one_failure (store : List ProductionItem)
    (item : ProductionItem) (now : Int) :
    insert_one store item WriteOutcome.failure now = (store, 0) := rfl

/-- Helper: both query functions build the same filter document. -/
theorem build_count_query_eq (style status order_number : Option String) :
    build_count_query style status order_number = build_query style status order_number := rfl

/-- Helper: the filter document built from the arguments matches a document
exactly when the spec-side predicate does. -/
theorem query_matches_build_query (item : ProductionItem)
    (style status order_number : Option String) :
    query_matches (build_query style status order_number) item
      = matches_spec item style status order_number := by
  rcases style with _ | s1 <;> rcases status with _ | s2 <;> rcases order_number with _ | s3 <;>
    simp only [query_matches, build_query, matches_spec] <;>
    (try by_cases h1 : s1 = "") <;> (try by_cases h2 : s2 = "") <;>
    (try by_cases h3 : s3 = "") <;> simp [*]

/-- Helper: lists filtered by pointwise-equal predicates are equal. -/
theorem filter_ext (p q : ProductionItem → Bool) (h : ∀ a, p a = q a)
    (l : List ProductionItem) : l.filter p = l.filter q := by
  have hpq : p = q := funext h
  rw [hpq]

/-- The four status strings are pairwise distinct, so the status
enumeration proved below is exact. -/
theorem status_values_distinct :
    ("pending" : String) ≠ "in_production" ∧ ("pending" : String) ≠ "completed"
    ∧ ("pending" : String) ≠ "delayed" ∧ ("in_production" : String) ≠ "completed"
    ∧ ("in_production" : String) ≠ "delayed" ∧ ("completed" : String) ≠ "delayed" := by
  refine ⟨?_, ?_, ?_, ?_, ?_, ?_⟩ <;> decide

/-- Claim C1 (code_bug evaluation): upserting `reingested0` over `stored0`
at time 300 leaves one record (the count is stable), but the stored
`created_at` becomes the re-ingested item's `created_at` (200): the `$set`
dict produced by `model_dump()` contains `created_at`, so the original
creation timestamp (100) is overwritten rather than preserved. -/
theorem C1_created_overwritten :
    (insert_items [stored0] [(reingested0, WriteOutcome.ok)] 300).1.map
        (fun d => d.created_at) = [reingested0.created_at]
    ∧ (insert_items [stored0] [(reingested0, WriteOutcome.ok)] 300).1.length = 1
    ∧ reingested0.created_at ≠ stored0.created_at := by
  refine ⟨by decide, by decide, by decide⟩

/-- Claim C2 (code_bug evaluation): the claim says a record whose shipping
date is in the past but which has zero stage dates returns `pending`.  On
the stage dates alone (shipping excluded, as the claim reads
`derive_status`) this is what the function yields; but the pipeline call
site passes the whole dates dict, whose values include the shipping entry,
so the same record is classified `completed` instead. -/
theorem C2_past_shipping_no_stages_completed :
    derive_status (stage_values c2_dates) c2_dates.shipping 0 = "pending"
    ∧ derive_status_pipeline c2_dates 0 = "completed" := by
  constructor <;> decide

/-- Claim C3 (code_bug evaluation): the claim says that when every collected
stage date is ≤ today and the delayed rule does not fire, the result is
`completed`, a future shipping date notwithstanding.  On the stage dates
alone the function indeed yields `completed`; but the pipeline call site
passes the whole dates dict, so the future shipping date is counted as an
uncompleted stage and the record is classified `in_production` instead. -/
theorem C3_future_shipping_blocks_completed :
    derive_status (stage_values c3_dates) c3_dates.shipping 0 = "completed"
    ∧ derive_status_pipeline c3_dates 0 = "in_production" := by
  constructor <;> decide

/-- Claim C4 (code_bug evaluation): on the title-row sheet the claim says
header row 1 is selected.  The code instead accepts header row 0: pandas
renames the five blank cells of the title row to "Unnamed: 1" … "Unnamed:
5", so `df.columns.notna().sum()` is the full sheet width 6 > 5 and the
very first attempt is accepted, the real header row becoming a body row. -/
theorem C4_title_row_accepted_as_header :
    (read_excel_flexible title_grid).1 = some 0
    ∧ (read_excel_flexible title_grid).1 ≠ some 1
    ∧ valid_columns { columns := make_columns (title_grid.get! 0), data := [] } = 6 := by
  refine ⟨by decide, by decide, by decide⟩

/-- Claim C5: whenever the shipping date is present and strictly before
today and the elapsed stage dates are fewer than the collected stage dates
(shipping excluded — which forces at least one stage date), the pipeline
classifies the record "delayed"; the delayed branch is the first return,
so it takes precedence over the completed check. -/
theorem C5_delayed_takes_precedence (pd : ProductionDates) (today s : Int)
    (hs : pd.shipping = some s) (hpast : s < today)
    (hlt : (((stage_values pd).filterMap id).filter (fun x => decide (x ≤ today))).length
        < ((stage_values pd).filterMap id).length) :
    derive_status_pipeline pd today = "delayed" := by
  apply derive_status_delayed_general (dates_values pd) pd.shipping today s hs hpast
  have hcons : (dates_values pd).filterMap id = s :: (stage_values pd).filterMap id := by
    show ((pd.shipping :: stage_values pd).filterMap id) = _
    rw [hs, List.filterMap_cons]
    rfl
  have hsle : decide (s ≤ today) = true := by simp [le_of_lt hpast]
  rw [hcons, List.filter_cons]
  simp only [hsle, if_true, List.length_cons]
  omega

/-- Witness for claim C5 at the spec's concrete scenario. -/
theorem C5_delayed_takes_precedence_witness :
    c5_dates.shipping = some (-5) ∧ (-5 : Int) < 0
    ∧ (((stage_values c5_dates).filterMap id).filter (fun x => decide (x ≤ (0 : Int)))).length
        < ((stage_values c5_dates).filterMap id).length
    ∧ derive_status_pipeline c5_dates 0 = "delayed" :=
  ⟨by decide, by decide, by decide,
   C5_delayed_takes_precedence c5_dates 0 (-5) (by decide) (by decide) (by decide)⟩

/-- Claim C6: every record produced by the pipeline has its status computed
by `derive_status` from that record's own dates, and that status is one of
exactly the four values pending, in_production, completed, delayed.  The
extraction-schema type `ProductionItemInput` carries no status field, so no
upstream-supplied status can reach a constructed record. -/
theorem C6_status_derived_and_in_range (inp : ProductionItemInput)
    (filename : String) (today now : Int) :
    (mk_production_item inp filename today now).status
        = derive_status_pipeline inp.dates today
    ∧ ((mk_production_item inp filename today now).status = "pending"
      ∨ (mk_production_item inp filename today now).status = "in_production"
      ∨ (mk_production_item inp filename today now).status = "completed"
      ∨ (mk_production_item inp filename today now).status = "delayed") := by
  refine ⟨rfl, ?_⟩
  show derive_status_pipeline inp.dates today = "pending" ∨ _
  exact derive_status_mem_four (dates_values inp.dates) inp.dates.shipping today

/-- Claim C7: when the extraction service refuses, the client raises a
validation error and `parse_production_sheet` propagates it to its caller
instead of catching it: the pipeline returns that very error, never an
empty success. -/
theorem C7_refusal_propagates (grid : Grid) (api_key : Option String)
    (m filename : String) (today now : Int)
    (hkey : api_key_ok api_key = true) :
    parse_production_sheet grid api_key (LLMessage.refusal m) filename today now
        = Except.error ("LLM refused to parse: " ++ m)
    ∧ ∀ items : List ProductionItem,
        parse_production_sheet grid api_key (LLMessage.refusal m) filename today now
          ≠ Except.ok items := by
  constructor
  · simp [parse_production_sheet, extract_production_items, hkey]
  · intro items
    simp [parse_production_sheet, extract_production_items, hkey]

/-- Witness for claim C7 at a concrete input. -/
theorem C7_refusal_propagates_witness :
    api_key_ok (some "sk-test") = true
    ∧ (parse_production_sheet [] (some "sk-test") (LLMessage.refusal "cannot comply")
          "f.xlsx" 0 0
        = Except.error ("LLM refused to parse: " ++ "cannot comply")
      ∧ ∀ items : List ProductionItem,
          parse_production_sheet [] (some "sk-test") (LLMessage.refusal "cannot comply")
            "f.xlsx" 0 0 ≠ Except.ok items) :=
  ⟨by decide,
   C7_refusal_propagates [] (some "sk-test") "cannot comply" "f.xlsx" 0 0 (by decide)⟩

/-- Claim C8: a per-record write failure is skipped without raising and
without aborting the remainder of the batch (removing the failing element
from the batch yields the same final store and count), a failing write
contributes nothing, and a successful write is counted exactly when it
inserted or materially changed a document. -/
theorem C8_per_record_failure_skipped :
    (∀ (store : List ProductionItem) (pre : List (ProductionItem × WriteOutcome))
        (item : ProductionItem) (post : List (ProductionItem × WriteOutcome)) (now : Int),
      insert_items store (pre ++ (item, WriteOutcome.failure) :: post) now
        = insert_items store (pre ++ post) now)
    ∧ (∀ (store : List ProductionItem) (item : ProductionItem) (now : Int),
      insert_one store item WriteOutcome.failure now = (store, 0))
    ∧ (∀ (store : List ProductionItem) (item : ProductionItem) (now : Int),
      (insert_one store item WriteOutcome.ok now).2
        = if materially_changed store item now then 1 else 0) := by
  refine ⟨?_, insert_one_failure, insert_one_count_spec⟩
  intro store pre item post now
  simp only [insert_items, List.foldl_append, List.foldl_cons, insert_one,
    Nat.add_zero, Prod.mk.eta]

/-- Claim C9: `get_items` and `get_total_count` build the same filter
document; that filter matches a record exactly when the spec-side predicate
does (style: case-insensitive substring; status: exact; order_number:
case-insensitive substring); the count is the number of matching records
however the query results are paginated (it is computed before any skip or
limit), and the query returns exactly the matching records sorted by
creation time descending, then paginated. -/
theorem C9_filter_semantics :
    (∀ style status order_number : Option String,
      build_count_query style status order_number = build_query style status order_number)
    ∧ (∀ (item : ProductionItem) (style status order_number : Option String),
      query_matches (build_query style status order_number) item
        = matches_spec item style status order_number)
    ∧ (∀ (store : List ProductionItem) (skip limit : Nat)
        (style status order_number : Option String),
      get_total_count store style status order_number
          = (store.filter (fun it => matches_spec it style status order_number)).length
      ∧ get_items store skip limit style status order_number
          = ((sort_by_created_desc
              (store.filter (fun it => matches_spec it style status order_number))).drop
                skip).take limit) := by
  refine ⟨build_count_query_eq, query_matches_build_query, ?_⟩
  intro store skip limit style status order_number
  constructor
  · simp only [get_total_count, build_count_query_eq]
    rw [filter_ext _ _ (fun a => query_matches_build_query a style status order_number)]
  · simp only [get_items]
    rw [filter_ext _ _ (fun a => query_matches_build_query a style status order_number)]

/-- Claim C10: an empty-string filter behaves exactly as an absent filter,
for each of the three filter arguments, in both `get_items` and
`get_total_count`; in particular a status filter of "" returns every record
rather than only records whose status is the empty string. -/
theorem C10_empty_filter_is_no_filter :
    ∀ (store : List ProductionItem) (skip limit : Nat)
      (style status order_number : Option String),
      (get_items store skip limit (some "") status order_number
        = get_items store skip limit none status order_number)
      ∧ (get_items store skip limit style (some "") order_number
        = get_items store skip limit style none order_number)
      ∧ (get_items store skip limit style status (some "")
        = get_items store skip limit style status none)
      ∧ (get_total_count store (some "") status order_number
        = get_total_count store none status order_number)
      ∧ (get_total_count store style (some "") order_number
        = get_total_count store style none order_number)
      ∧ (get_total_count store style status (some "")
        = get_total_count store style status none) := by
  intro store skip limit style status order_number
  refine ⟨?_, ?_, ?_, ?_, ?_, ?_⟩ <;>
    simp [get_items, get_total_count, build_query, build_count_query]

end Textile
